import Mathlib

/-
Verification of the commit-template evaluation core (`cli/src/commit_templater.rs`):
a shallow embedding of the id-formatting, ref-index, ref-tracking and typed-value
coercion logic, together with theorems checking the documented properties.

Machine ids (commit ids, change ids) are byte strings; hex rendering is over
the standard alphabet for commit ids and the reversed digit alphabet for change
ids.  Rust `String` manipulation on pure-ASCII hex is embedded as `List Char`
manipulation (`truncate` = `take`, `split_off` = `take`/`drop`).
-/

namespace CommitTemplater

/-- Modelled from the spec: a content-addressed commit id (jj-lib `CommitId`,
external to the excerpted sources) is an opaque byte string rendered as hex. -/
structure CommitId where
  bytes : List (Fin 256)
deriving DecidableEq, Repr

/-- Modelled from the spec: a change id (jj-lib `ChangeId`, external to the
excerpted sources) is an opaque byte string rendered through a reversed digit
alphabet. -/
structure ChangeId where
  bytes : List (Fin 256)
deriving DecidableEq, Repr

/-- High nibble of a byte. -/
def hiNib (b : Fin 256) : Fin 16 :=
  ⟨b.val / 16, by have := b.isLt; omega⟩

/-- Low nibble of a byte. -/
def loNib (b : Fin 256) : Fin 16 :=
  ⟨b.val % 16, by omega⟩

/-- Standard lowercase hex digit alphabet `0-9a-f`. -/
def forwardHexDigit (n : Fin 16) : Char :=
  match n.val with
  | 0 => '0' | 1 => '1' | 2 => '2' | 3 => '3' | 4 => '4' | 5 => '5' | 6 => '6' | 7 => '7'
  | 8 => '8' | 9 => '9' | 10 => 'a' | 11 => 'b' | 12 => 'c' | 13 => 'd' | 14 => 'e' | _ => 'f'

/-- Modelled from the spec: the reversed digit alphabet `z-k` used by
`ChangeId::reverse_hex` — a reversed digit mapping (digit `0` renders as `z`,
digit `15` as `k`), not merely a reversed string. -/
def reverseHexDigit (n : Fin 16) : Char :=
  match n.val with
  | 0 => 'z' | 1 => 'y' | 2 => 'x' | 3 => 'w' | 4 => 'v' | 5 => 'u' | 6 => 't' | 7 => 's'
  | 8 => 'r' | 9 => 'q' | 10 => 'p' | 11 => 'o' | 12 => 'n' | 13 => 'm' | 14 => 'l' | _ => 'k'

/-- Render a byte string through a digit alphabet, two digits per byte,
high nibble first. -/
def bytesToHex (digit : Fin 16 → Char) : List (Fin 256) → List Char
  | [] => []
  | b :: bs => digit (hiNib b) :: digit (loNib b) :: bytesToHex digit bs

/-- Modelled from the spec: `CommitId::hex` — standard hex rendering. -/
def CommitId.hex (id : CommitId) : List Char :=
  bytesToHex forwardHexDigit id.bytes

/-- Modelled from the spec: `ChangeId::hex` — the normal ("forward") hex
rendering of a change id, used by the `normal_hex` method. -/
def ChangeId.hex (id : ChangeId) : List Char :=
  bytesToHex forwardHexDigit id.bytes

/-- Modelled from the spec: `ChangeId::reverse_hex` — hex through the reversed
digit alphabet. -/
def ChangeId.reverse_hex (id : ChangeId) : List Char :=
  bytesToHex reverseHexDigit id.bytes

/-- Inverse of `reverseHexDigit` on its image. -/
def reverseHexVal : Char → Option (Fin 16)
  | 'z' => some 0 | 'y' => some 1 | 'x' => some 2 | 'w' => some 3
  | 'v' => some 4 | 'u' => some 5 | 't' => some 6 | 's' => some 7
  | 'r' => some 8 | 'q' => some 9 | 'p' => some 10 | 'o' => some 11
  | 'n' => some 12 | 'm' => some 13 | 'l' => some 14 | 'k' => some 15
  | _ => none

/-- Decode a reversed-alphabet hex string back into a byte string (two digits
per byte, high nibble first); fails on odd length or a character outside the
alphabet. -/
def decodeReverseHex : List Char → Option (List (Fin 256))
  | [] => some []
  | [_] => none
  | c1 :: c2 :: rest => do
    let hi ← reverseHexVal c1
    let lo ← reverseHexVal c2
    let bs ← decodeReverseHex rest
    pure (⟨hi.val * 16 + lo.val, by have := hi.isLt; have := lo.isLt; omega⟩ :: bs)

/-- Decode a reversed-alphabet hex string into a change id. -/
def ChangeId.fromReverseHex (chars : List Char) : Option ChangeId :=
  (decodeReverseHex chars).map ChangeId.mk

/-- `CommitOrChangeId`: a tagged choice between a commit id and a change id. -/
inductive CommitOrChangeId where
  | Commit (id : CommitId)
  | Change (id : ChangeId)
deriving DecidableEq, Repr

/-- `CommitOrChangeId::hex`: commit ids render in standard hex, change ids
through the reversed digit alphabet. -/
def CommitOrChangeId.hex : CommitOrChangeId → List Char
  | .Commit id => id.hex
  | .Change id => id.reverse_hex

/-- `CommitOrChangeId::short`: the hex rendering truncated to `total_len`. -/
def CommitOrChangeId.short (id : CommitOrChangeId) (total_len : Nat) : List Char :=
  id.hex.take total_len

/-- Modelled from the spec: the externally supplied "shortest unique prefix
length" index (jj-lib `IdPrefixIndex`), queried per id kind; the read-only
repo handle is absorbed into the two query functions. -/
structure IdPrefixIndex where
  shortest_commit_prefix_len : CommitId → Nat
  shortest_change_prefix_len : ChangeId → Nat

/-- Modelled from the spec: `IdPrefixIndex::empty()`, the fallback index used
when populating the short-prefixes index fails. -/
def IdPrefixIndex.empty : IdPrefixIndex :=
  { shortest_commit_prefix_len := fun _ => 0
    shortest_change_prefix_len := fun _ => 0 }

/-- `ShortestIdPrefix`: a split of an id's hex text into a unique prefix part
(source field `prefix`) and the disambiguating remainder (source field
`rest`). -/
structure ShortestIdPrefix where
  prefixPart : List Char
  rest : List Char
deriving DecidableEq, Repr

/-- The disambiguating length the index reports for this id, per id kind
(the inline `match` in `CommitOrChangeId::shortest`). -/
def CommitOrChangeId.prefixLenIn (id : CommitOrChangeId) (index : IdPrefixIndex) : Nat :=
  match id with
  | .Commit cid => index.shortest_commit_prefix_len cid
  | .Change cid => index.shortest_change_prefix_len cid

/-- `CommitOrChangeId::shortest`: truncate the hex to
`max(prefix_len, total_len)` and split it at `prefix_len`
(`String::truncate` / `String::split_off` on ASCII hex embed as
`List.take` / `List.drop`). -/
def CommitOrChangeId.shortest (id : CommitOrChangeId) (index : IdPrefixIndex)
    (total_len : Nat) : ShortestIdPrefix :=
  let hex := id.hex
  let prefix_len := id.prefixLenIn index
  let truncated := hex.take (max prefix_len total_len)
  { prefixPart := truncated.take prefix_len
    rest := truncated.drop prefix_len }

/-- A size hint `(lower bound, optional upper bound)` as produced by
`count_estimate`. -/
abbrev SizeHint := Nat × Option Nat

/-- Modelled from the spec: a ref target (jj-lib `RefTarget`, external to the
excerpted sources), a possibly absent or conflicted set of commit ids, exposing
its added and removed ids. -/
structure RefTarget where
  added_ids : List CommitId
  removed_ids : List CommitId
deriving DecidableEq, Repr

/-- Modelled from the spec: a remote ref (jj-lib `RemoteRef`, external to the
excerpted sources): a target plus whether a local ref tracks it. -/
structure RemoteRef where
  target : RefTarget
  tracked : Bool
deriving DecidableEq, Repr

/-- `RemoteRef::is_tracked`. -/
def RemoteRef.is_tracked (remote_ref : RemoteRef) : Bool :=
  remote_ref.tracked

/-- `TrackingRef`: local ref metadata which tracks a remote ref; the
`OnceCell<SizeHint>` count cells embed as `Option SizeHint` (`some` =
already initialized). -/
structure TrackingRef where
  target : RefTarget
  ahead_count : Option SizeHint
  behind_count : Option SizeHint
deriving DecidableEq, Repr

/-- `CommitRef`: a local or remote bookmark/tag/git ref. -/
structure CommitRef where
  name : String
  remote : Option String
  target : RefTarget
  tracking_ref : Option TrackingRef
  synced : Bool
deriving DecidableEq, Repr

/-- `CommitRef::local`: a local ref which might track some of the
`remote_refs`; `synced` holds iff every tracked remote ref already equals the
local target. -/
def CommitRef.local (name : String) (target : RefTarget)
    (remote_refs : List RemoteRef) : CommitRef :=
  { name := name
    remote := none
    target := target
    tracking_ref := none
    synced := remote_refs.all fun remote_ref =>
      !remote_ref.is_tracked || decide (remote_ref.target = target) }

/-- `CommitRef::local_only`: a local ref which doesn't track any remote
refs. -/
def CommitRef.local_only (name : String) (target : RefTarget) : CommitRef :=
  CommitRef.local name target []

/-- `CommitRef::remote` (named `remote'` here because `remote` is the field
projection): a remote ref which might be tracked by a local ref pointing to
`local_target`; when synced both count cells are pre-initialized to
`(0, some 0)` as a fast path. -/
def CommitRef.remote' (name : String) (remote_name : String)
    (remote_ref : RemoteRef) (local_target : RefTarget) : CommitRef :=
  let synced := remote_ref.is_tracked && decide (remote_ref.target = local_target)
  let tracking_ref :=
    if remote_ref.is_tracked then
      some { target := local_target
             ahead_count := if synced then some (0, some 0) else none
             behind_count := if synced then some (0, some 0) else none }
    else none
  { name := name
    remote := some remote_name
    target := remote_ref.target
    tracking_ref := tracking_ref
    synced := synced }

/-- `CommitRef::remote_only`: a remote ref which isn't tracked by a local ref;
it has no local counterpart, so `synced` is false. -/
def CommitRef.remote_only (name : String) (remote_name : String)
    (target : RefTarget) : CommitRef :=
  { name := name
    remote := some remote_name
    target := target
    tracking_ref := none
    synced := false }

/-- `CommitRef::remote_name`. -/
def CommitRef.remote_name (commit_ref : CommitRef) : Option String :=
  commit_ref.remote

/-- `CommitRef::is_local`. -/
def CommitRef.is_local (commit_ref : CommitRef) : Bool :=
  commit_ref.remote.isNone

/-- `CommitRef::is_remote`. -/
def CommitRef.is_remote (commit_ref : CommitRef) : Bool :=
  commit_ref.remote.isSome

/-- `CommitRef::is_tracked`. -/
def CommitRef.is_tracked (commit_ref : CommitRef) : Bool :=
  commit_ref.tracking_ref.isSome

/-- `CommitRef::tracking_ahead_count`: error when there is no tracking ref;
otherwise the memoized count, or else a commit-graph walk from this ref's
added ids to the tracking target's added ids.  The external
`revset::walk_revs(..).count_estimate()` collaborator is a parameter. -/
def CommitRef.tracking_ahead_count (commit_ref : CommitRef)
    (walk_revs : List CommitId → List CommitId → Except String SizeHint) :
    Except String SizeHint :=
  match commit_ref.tracking_ref with
  | none => .error ("Not a tracked remote ref")
  | some tracking =>
    match tracking.ahead_count with
    | some count => .ok count
    | none => walk_revs commit_ref.target.added_ids tracking.target.added_ids

/-- `CommitRef::tracking_behind_count`: as `tracking_ahead_count` with the
walk direction reversed. -/
def CommitRef.tracking_behind_count (commit_ref : CommitRef)
    (walk_revs : List CommitId → List CommitId → Except String SizeHint) :
    Except String SizeHint :=
  match commit_ref.tracking_ref with
  | none => .error ("Not a tracked remote ref")
  | some tracking =>
    match tracking.behind_count with
    | some count => .ok count
    | none => walk_revs tracking.target.added_ids commit_ref.target.added_ids

/-- `CommitRefsIndex`: reverse lookup from a commit id to the refs targeting
it; the `HashMap<CommitId, Vec<_>>` embeds as a total function with the empty
list as the missing-entry default. -/
structure CommitRefsIndex where
  index : CommitId → List CommitRef

/-- The empty index (`CommitRefsIndex::default`). -/
def CommitRefsIndex.emptyIndex : CommitRefsIndex :=
  ⟨fun _ => []⟩

/-- One iteration of the `for id in ids` loop inside `CommitRefsIndex::insert`:
push `name` onto the entry for `id`. -/
def CommitRefsIndex.insertOne (idx : CommitRefsIndex) (id : CommitId)
    (name : CommitRef) : CommitRefsIndex :=
  ⟨fun i => if i = id then idx.index i ++ [name] else idx.index i⟩

/-- `CommitRefsIndex::insert`: push `name` onto the entry of every id in
`ids`. -/
def CommitRefsIndex.insert (idx : CommitRefsIndex) (ids : List CommitId)
    (name : CommitRef) : CommitRefsIndex :=
  ids.foldl (fun acc id => acc.insertOne id name) idx

/-- `CommitRefsIndex::get`. -/
def CommitRefsIndex.get (idx : CommitRefsIndex) (id : CommitId) :
    List CommitRef :=
  idx.index id

/-- An index built by inserting a sequence of constructed refs, each keyed by
its own target's added ids — the pattern of both `build_bookmarks_index`
(which inserts local refs under `local_target.added_ids()` and remote refs
under `remote_ref.target.added_ids()`, both equal to the ref's own target) and
`build_commit_refs_index`. -/
def CommitRefsIndex.insertAll (refs : List CommitRef) : CommitRefsIndex :=
  refs.foldl (fun idx r => idx.insert r.target.added_ids r)
    CommitRefsIndex.emptyIndex

/-- The `bookmarks` commit method: refs of the shared bookmarks index for this
commit id, keeping a ref iff it is local or not synced. -/
def bookmarks_method (index : CommitRefsIndex) (id : CommitId) :
    List CommitRef :=
  (index.get id).filter fun commit_ref => commit_ref.is_local || !commit_ref.synced

/-- The `local_bookmarks` commit method: the local refs of the shared
bookmarks index for this commit id. -/
def local_bookmarks_method (index : CommitRefsIndex) (id : CommitId) :
    List CommitRef :=
  (index.get id).filter fun commit_ref => commit_ref.is_local

/-- The `remote_bookmarks` commit method: the remote refs of the shared
bookmarks index for this commit id. -/
def remote_bookmarks_method (index : CommitRefsIndex) (id : CommitId) :
    List CommitRef :=
  (index.get id).filter fun commit_ref => commit_ref.is_remote

/-- Modelled from the spec: a commit handle (jj-lib `Commit`, external); for
the claims here only its id matters. -/
structure Commit where
  id : CommitId
deriving DecidableEq, Repr

/-- Modelled from the spec: a repository-relative path (jj-lib `RepoPathBuf`,
external), opaque here. -/
structure RepoPathBuf where
  value : String
deriving DecidableEq, Repr

/-- Modelled from the spec: a cryptographic signature on a commit, opaque
here. -/
structure CryptographicSignature where
  data : List (Fin 256)
deriving DecidableEq, Repr

/-- A tree-diff value, opaque here (its internals are out of the claims'
scope). -/
structure TreeDiff where
  token : Nat
deriving DecidableEq, Repr

/-- One entry of a tree diff, opaque here. -/
structure TreeDiffEntry where
  token : Nat
deriving DecidableEq, Repr

/-- One side of a tree-diff entry, opaque here. -/
structure TreeEntry where
  token : Nat
deriving DecidableEq, Repr

/-- A finalized diff-stats aggregate, opaque here. -/
structure DiffStatsFormatted where
  token : Nat
deriving DecidableEq, Repr

/-- One line of an annotation, opaque here. -/
structure AnnotationLine where
  token : Nat
deriving DecidableEq, Repr

/-- One structured trailer of a commit description. -/
structure Trailer where
  key : String
  value : String
deriving DecidableEq, Repr

/-- Modelled from the spec: the generic/core primitive kind delegates its
coercions to the core templater (external); only the delegated boolean
coercion result is relevant here. -/
structure CoreTemplatePropertyKind where
  booleanCoercion : Option Bool

/-- `CommitTemplatePropertyKind`: the typed value lattice.  Each Rust variant
owns a type-erased lazy property of the matching output type; the shallow
embedding replaces the property by the value it would produce for the current
record. -/
inductive CommitTemplatePropertyKind where
  | Core (value : CoreTemplatePropertyKind)
  | Commit (value : Commit)
  | CommitOpt (value : Option Commit)
  | CommitList (value : List Commit)
  | CommitRef (value : CommitRef)
  | CommitRefOpt (value : Option CommitRef)
  | CommitRefList (value : List CommitRef)
  | RepoPath (value : RepoPathBuf)
  | RepoPathOpt (value : Option RepoPathBuf)
  | CommitOrChangeId (value : CommitOrChangeId)
  | ShortestIdPrefix (value : ShortestIdPrefix)
  | TreeDiff (value : TreeDiff)
  | TreeDiffEntry (value : TreeDiffEntry)
  | TreeDiffEntryList (value : List TreeDiffEntry)
  | TreeEntry (value : TreeEntry)
  | DiffStats (value : DiffStatsFormatted)
  | CryptographicSignatureOpt (value : Option CryptographicSignature)
  | AnnotationLine (value : AnnotationLine)
  | Trailer (value : Trailer)
  | TrailerList (value : List Trailer)

/-- `IntoTemplateProperty::try_into_boolean` for the commit template kinds:
option-like kinds coerce to "is present", list-like kinds to "is non-empty",
the core kind delegates, and every other kind does not coerce. -/
def CommitTemplatePropertyKind.try_into_boolean :
    CommitTemplatePropertyKind → Option Bool
  | .Core value => value.booleanCoercion
  | .Commit _ => none
  | .CommitOpt value => some value.isSome
  | .CommitList value => some !value.isEmpty
  | .CommitRef _ => none
  | .CommitRefOpt value => some value.isSome
  | .CommitRefList value => some !value.isEmpty
  | .RepoPath _ => none
  | .RepoPathOpt value => some value.isSome
  | .CommitOrChangeId _ => none
  | .ShortestIdPrefix _ => none
  | .TreeDiff _ => none
  | .TreeDiffEntry _ => none
  | .TreeDiffEntryList value => some !value.isEmpty
  | .TreeEntry _ => none
  | .DiffStats _ => none
  | .CryptographicSignatureOpt value => some value.isSome
  | .AnnotationLine _ => none
  | .Trailer _ => none
  | .TrailerList value => some !value.isEmpty

/-- Template diagnostics: the accumulated warnings. -/
structure TemplateDiagnostics where
  warnings : List String
deriving DecidableEq, Repr

/-- The warning recorded when populating the short-prefixes index fails
(`TemplateParseError::expression(..).with_source(err)`). -/
def shortPrefixesWarning (err : String) : String :=
  "Failed to load short-prefixes index: " ++ err

/-- The `shortest` method builder on a `CommitOrChangeId` receiver, from the
point where the optional length argument has been bound: on a populate
failure it adds a warning and falls back to the empty index instead of
failing, and in both cases returns `Ok` with a `ShortestIdPrefix` property
(here, the function the bound property applies to the receiver's value; the
missing length argument defaults to 0). -/
def buildShortestMethod (populate : Except String IdPrefixIndex)
    (diagnostics : TemplateDiagnostics) (len_arg : Option Nat) :
    TemplateDiagnostics × Except String (CommitOrChangeId → ShortestIdPrefix) :=
  match populate with
  | .ok index =>
    (diagnostics, .ok fun id => id.shortest index (len_arg.getD 0))
  | .error err =>
    ({ warnings := diagnostics.warnings ++ [shortPrefixesWarning err] },
     .ok fun id => id.shortest IdPrefixIndex.empty (len_arg.getD 0))

/-- Whether an `Except` result is a success. -/
def exceptIsOk {ε α : Type} : Except ε α → Bool
  | .ok _ => true
  | .error _ => false

/-! ## Theorems -/

/-- The two parts of a `shortest` split together are the truncated hex:
their total length is `min(max(prefix_len, total_len), full_hex_len)`. -/
theorem shortest_parts_length (id : CommitOrChangeId) (index : IdPrefixIndex)
    (total_len : Nat) :
    ((id.shortest index total_len).prefixPart).length
        + ((id.shortest index total_len).rest).length
      = min (max (id.prefixLenIn index) total_len) id.hex.length := by
  simp only [CommitOrChangeId.shortest, List.length_take, List.length_drop]
  omega

/-- C1 (counterexample): for the one-byte-disambiguated commit id `1234` and
`min_len = 2`, the split is `1` / `2`, so `prefix.len() + rest.len() = 2`,
not the full hex length `4` (and `prefix.len() = 1 < min_len = 2` although
`min_len ≤ full_hex.len()`). -/
theorem shortest_not_full_hex_at_1234 :
    ¬ ((((CommitOrChangeId.Commit ⟨[⟨18, by omega⟩, ⟨52, by omega⟩]⟩).shortest
          ⟨fun _ => 1, fun _ => 1⟩ 2).prefixPart).length
        + (((CommitOrChangeId.Commit ⟨[⟨18, by omega⟩, ⟨52, by omega⟩]⟩).shortest
          ⟨fun _ => 1, fun _ => 1⟩ 2).rest).length
      = ((CommitOrChangeId.Commit ⟨[⟨18, by omega⟩, ⟨52, by omega⟩]⟩).hex).length) := by
  decide

/-- C1 (amended): the `ShortestIdPrefix` returned by
`shortest(repo, index, min_len)` satisfies `prefix.len() + rest.len() ==
min(full_hex.len(), max(unique_len, min_len))` (not the full hex length), and
the combined split length `prefix.len() + rest.len()` (not the prefix alone)
is at least `min_len` whenever `min_len <= full_hex.len()`. -/
theorem shortest_split_length_characterization (id : CommitOrChangeId)
    (index : IdPrefixIndex) (min_len : Nat) :
    ((id.shortest index min_len).prefixPart).length
        + ((id.shortest index min_len).rest).length
      = min id.hex.length (max (id.prefixLenIn index) min_len)
    ∧ (min_len ≤ id.hex.length →
        min_len ≤ ((id.shortest index min_len).prefixPart).length
          + ((id.shortest index min_len).rest).length) := by
  have h := shortest_parts_length id index min_len
  constructor
  · omega
  · intro hle
    omega

/-- C1 (witness): the amended statement evaluated at the commit id `1234`
with unique length 1 and `min_len = 2`: the split has total length
`2 = min(4, max(1, 2))` and `2 ≤ 4` forces total length at least 2. -/
theorem shortest_split_length_characterization_instance :
    (((CommitOrChangeId.Commit ⟨[⟨18, by omega⟩, ⟨52, by omega⟩]⟩).shortest
        ⟨fun _ => 1, fun _ => 1⟩ 2).prefixPart).length
      + (((CommitOrChangeId.Commit ⟨[⟨18, by omega⟩, ⟨52, by omega⟩]⟩).shortest
        ⟨fun _ => 1, fun _ => 1⟩ 2).rest).length = 2
    ∧ 2 ≤ (((CommitOrChangeId.Commit ⟨[⟨18, by omega⟩, ⟨52, by omega⟩]⟩).shortest
        ⟨fun _ => 1, fun _ => 1⟩ 2).prefixPart).length
      + (((CommitOrChangeId.Commit ⟨[⟨18, by omega⟩, ⟨52, by omega⟩]⟩).shortest
        ⟨fun _ => 1, fun _ => 1⟩ 2).rest).length := by
  have h := shortest_split_length_characterization
    (CommitOrChangeId.Commit ⟨[⟨18, by omega⟩, ⟨52, by omega⟩]⟩)
    ⟨fun _ => 1, fun _ => 1⟩ 2
  exact ⟨h.1.trans (by decide), h.2 (by decide)⟩

/-- C2: when the reported unique length and `min_len` do not exceed the full
hex length, the total length of the `shortest` split is exactly
`max(unique_len, min_len)`. -/
theorem shortest_total_length_is_max (id : CommitOrChangeId)
    (index : IdPrefixIndex) (min_len : Nat)
    (hu : id.prefixLenIn index ≤ id.hex.length)
    (hm : min_len ≤ id.hex.length) :
    ((id.shortest index min_len).prefixPart).length
        + ((id.shortest index min_len).rest).length
      = max (id.prefixLenIn index) min_len := by
  have h := shortest_parts_length id index min_len
  omega

/-- C2 (witness): at the commit id `1234` with unique length 3 and
`min_len = 2` (both at most the full hex length 4), the split has total
length `max(3, 2) = 3`. -/
theorem shortest_total_length_is_max_instance :
    (CommitOrChangeId.Commit ⟨[⟨18, by omega⟩, ⟨52, by omega⟩]⟩).prefixLenIn
        ⟨fun _ => 3, fun _ => 3⟩
      ≤ ((CommitOrChangeId.Commit ⟨[⟨18, by omega⟩, ⟨52, by omega⟩]⟩).hex).length
    ∧ (((CommitOrChangeId.Commit ⟨[⟨18, by omega⟩, ⟨52, by omega⟩]⟩).shortest
        ⟨fun _ => 3, fun _ => 3⟩ 2).prefixPart).length
      + (((CommitOrChangeId.Commit ⟨[⟨18, by omega⟩, ⟨52, by omega⟩]⟩).shortest
        ⟨fun _ => 3, fun _ => 3⟩ 2).rest).length = 3 := by
  refine ⟨by decide, ?_⟩
  have h := shortest_total_length_is_max
    (CommitOrChangeId.Commit ⟨[⟨18, by omega⟩, ⟨52, by omega⟩]⟩)
    ⟨fun _ => 3, fun _ => 3⟩ 2 (by decide) (by decide)
  exact h.trans (by decide)

/-- Decoding inverts the reversed digit alphabet digit-wise. -/
theorem reverseHexVal_reverseHexDigit :
    ∀ d : Fin 16, reverseHexVal (reverseHexDigit d) = some d := by
  decide

/-- Decoding a reversed-alphabet rendering recovers the byte string. -/
theorem decodeReverseHex_bytesToHex (bs : List (Fin 256)) :
    decodeReverseHex (bytesToHex reverseHexDigit bs) = some bs := by
  induction bs with
  | nil => rfl
  | cons b bs ih =>
    simp only [bytesToHex, decodeReverseHex, reverseHexVal_reverseHexDigit,
      Option.bind_eq_bind, Option.some_bind, ih, Option.pure_def,
      Option.some.injEq, List.cons.injEq, and_true]
    apply Fin.ext
    simp only [hiNib, loNib]
    omega

/-- C3: `CommitOrChangeId::Commit(id).hex()` is the standard hex rendering
`id.hex()`; and for every change id, decoding the reversed-alphabet hex
recovers the original change id, so re-encoding it yields the same reversed
hex (a round trip). -/
theorem hex_commit_id_and_change_roundtrip :
    (∀ id : CommitId, (CommitOrChangeId.Commit id).hex = id.hex)
    ∧ (∀ id : ChangeId,
        ChangeId.fromReverseHex ((CommitOrChangeId.Change id).hex) = some id
        ∧ (ChangeId.fromReverseHex ((CommitOrChangeId.Change id).hex)).map
            ChangeId.reverse_hex = some ((CommitOrChangeId.Change id).hex)) := by
  refine ⟨fun id => rfl, fun id => ?_⟩
  have h : ChangeId.fromReverseHex ((CommitOrChangeId.Change id).hex) = some id := by
    simp [ChangeId.fromReverseHex, CommitOrChangeId.hex, ChangeId.reverse_hex,
      decodeReverseHex_bytesToHex]
  exact ⟨h, by rw [h]; rfl⟩

/-- Effect of one `insert` call on an entry: when the inserted id list has no
duplicates, the ref is appended to the entry of exactly the listed ids. -/
theorem insert_index_eq (ids : List CommitId) (r : CommitRef) :
    ∀ (idx : CommitRefsIndex) (i : CommitId), ids.Nodup →
      (idx.insert ids r).index i
        = idx.index i ++ (if i ∈ ids then [r] else []) := by
  induction ids with
  | nil =>
    intro idx i _
    simp [CommitRefsIndex.insert]
  | cons id ids ih =>
    intro idx i h
    obtain ⟨hid, hnd⟩ := List.nodup_cons.mp h
    show (CommitRefsIndex.insert (idx.insertOne id r) ids r).index i = _
    rw [ih _ _ hnd]
    by_cases hi : i = id
    · subst hi
      simp [CommitRefsIndex.insertOne, hid]
    · simp [CommitRefsIndex.insertOne, hi]

/-- Effect of folding `insert` over a sequence of refs, generalized over the
starting index. -/
theorem foldl_insert_index_eq (refs : List CommitRef) :
    ∀ (idx : CommitRefsIndex) (i : CommitId),
      (∀ r ∈ refs, r.target.added_ids.Nodup) →
      (refs.foldl (fun a r => a.insert r.target.added_ids r) idx).index i
        = idx.index i
            ++ refs.filter (fun r => decide (i ∈ r.target.added_ids)) := by
  induction refs with
  | nil =>
    intro idx i _
    simp
  | cons r refs ih =>
    intro idx i h
    have hr : r.target.added_ids.Nodup := h r (List.mem_cons_self r refs)
    have hrest : ∀ x ∈ refs, x.target.added_ids.Nodup := fun x hx =>
      h x (List.mem_cons_of_mem r hx)
    show (refs.foldl _ (idx.insert r.target.added_ids r)).index i = _
    rw [ih _ _ hrest, insert_index_eq _ _ _ _ hr]
    by_cases hi : i ∈ r.target.added_ids
    · simp [hi, List.filter_cons]
    · simp [hi, List.filter_cons]

/-- C4: for an index built by inserting a sequence of constructed refs (each
under its target's added ids, with no duplicate ids per ref), `get(id)`
returns exactly the inserted refs whose target's added ids include `id`, in
insertion order — and hence the empty sequence when no inserted ref targets
`id`. -/
theorem refs_index_get_eq_filter (refs : List CommitRef) (id : CommitId)
    (h : ∀ r ∈ refs, r.target.added_ids.Nodup) :
    (CommitRefsIndex.insertAll refs).get id
      = refs.filter (fun r => decide (id ∈ r.target.added_ids)) := by
  have hfold := foldl_insert_index_eq refs CommitRefsIndex.emptyIndex id h
  simpa [CommitRefsIndex.insertAll, CommitRefsIndex.get,
    CommitRefsIndex.emptyIndex] using hfold

/-- C4 (witness): inserting a local ref targeting commit `01` and a remote
ref targeting commit `02`, the lookup at `01` returns exactly the local ref,
and the lookup at the untargeted `03` returns the empty sequence. -/
theorem refs_index_get_eq_filter_instance :
    (∀ r ∈ [CommitRef.local_only ("a") ⟨[⟨[1]⟩], []⟩,
            CommitRef.remote_only ("b") ("origin") ⟨[⟨[2]⟩], []⟩],
        r.target.added_ids.Nodup)
    ∧ (CommitRefsIndex.insertAll
          [CommitRef.local_only ("a") ⟨[⟨[1]⟩], []⟩,
           CommitRef.remote_only ("b") ("origin") ⟨[⟨[2]⟩], []⟩]).get ⟨[1]⟩
        = [CommitRef.local_only ("a") ⟨[⟨[1]⟩], []⟩]
    ∧ (CommitRefsIndex.insertAll
          [CommitRef.local_only ("a") ⟨[⟨[1]⟩], []⟩,
           CommitRef.remote_only ("b") ("origin") ⟨[⟨[2]⟩], []⟩]).get ⟨[3]⟩
        = [] := by
  refine ⟨by decide, ?_, ?_⟩
  · exact (refs_index_get_eq_filter _ _ (by decide)).trans (by decide)
  · exact (refs_index_get_eq_filter _ _ (by decide)).trans (by decide)

/-- C5: a local ref whose `remote_refs` contain no tracked remote counterpart
has `synced = true` (in particular one built by `local_only`), and a remote
ref built by `remote_only` has `synced = false`, unconditionally. -/
theorem synced_of_untracked_constructors (name remote_nm : String)
    (target : RefTarget) (remote_refs : List RemoteRef)
    (h : ∀ remote_ref ∈ remote_refs, remote_ref.is_tracked = false) :
    (CommitRef.local name target remote_refs).synced = true
    ∧ (CommitRef.local_only name target).synced = true
    ∧ (CommitRef.remote_only name remote_nm target).synced = false := by
  refine ⟨?_, rfl, rfl⟩
  simp only [CommitRef.local, List.all_eq_true]
  intro remote_ref hmem
  simp [h remote_ref hmem]

/-- C5 (witness): a local ref with one untracked remote ref is synced (even
though the remote target differs), `local_only` is synced, and `remote_only`
is unsynced. -/
theorem synced_of_untracked_constructors_instance :
    (∀ remote_ref ∈ [RemoteRef.mk ⟨[⟨[2]⟩], []⟩ false],
        remote_ref.is_tracked = false)
    ∧ ((CommitRef.local ("a") ⟨[⟨[1]⟩], []⟩
          [RemoteRef.mk ⟨[⟨[2]⟩], []⟩ false]).synced = true
      ∧ (CommitRef.local_only ("a") ⟨[⟨[1]⟩], []⟩).synced = true
      ∧ (CommitRef.remote_only ("a") ("origin") ⟨[⟨[1]⟩], []⟩).synced = false) :=
  ⟨by decide,
   synced_of_untracked_constructors ("a") ("origin") ⟨[⟨[1]⟩], []⟩
     [RemoteRef.mk ⟨[⟨[2]⟩], []⟩ false] (by decide)⟩

/-- C6: for every `CommitRef` value, whatever constructor produced it,
`is_local()` agrees with `remote_name().is_none()`, and exactly one of
`is_local()` and `is_remote()` holds. -/
theorem is_local_iff_no_remote_name (commit_ref : CommitRef) :
    commit_ref.is_local = commit_ref.remote_name.isNone
    ∧ commit_ref.is_local = !commit_ref.is_remote := by
  cases h : commit_ref.remote with
  | none =>
    simp [CommitRef.is_local, CommitRef.is_remote, CommitRef.remote_name, h]
  | some r =>
    simp [CommitRef.is_local, CommitRef.is_remote, CommitRef.remote_name, h]

/-- C7: the boolean coercion of every option-like kind succeeds and yields
true exactly when the value is present, and that of every list-like kind
succeeds and yields true exactly when the list is non-empty. -/
theorem try_into_boolean_option_and_list_kinds
    (a : Option Commit) (b : Option CommitRef) (c : Option RepoPathBuf)
    (d : Option CryptographicSignature) (la : List Commit)
    (lb : List CommitRef) (lc : List TreeDiffEntry) (ld : List Trailer) :
    (((CommitTemplatePropertyKind.CommitOpt a).try_into_boolean).isSome = true
      ∧ ((CommitTemplatePropertyKind.CommitOpt a).try_into_boolean = some true
          ↔ a.isSome = true))
    ∧ (((CommitTemplatePropertyKind.CommitRefOpt b).try_into_boolean).isSome = true
      ∧ ((CommitTemplatePropertyKind.CommitRefOpt b).try_into_boolean = some true
          ↔ b.isSome = true))
    ∧ (((CommitTemplatePropertyKind.RepoPathOpt c).try_into_boolean).isSome = true
      ∧ ((CommitTemplatePropertyKind.RepoPathOpt c).try_into_boolean = some true
          ↔ c.isSome = true))
    ∧ (((CommitTemplatePropertyKind.CryptographicSignatureOpt d).try_into_boolean).isSome
          = true
      ∧ ((CommitTemplatePropertyKind.CryptographicSignatureOpt d).try_into_boolean
            = some true ↔ d.isSome = true))
    ∧ (((CommitTemplatePropertyKind.CommitList la).try_into_boolean).isSome = true
      ∧ ((CommitTemplatePropertyKind.CommitList la).try_into_boolean = some true
          ↔ la ≠ []))
    ∧ (((CommitTemplatePropertyKind.CommitRefList lb).try_into_boolean).isSome = true
      ∧ ((CommitTemplatePropertyKind.CommitRefList lb).try_into_boolean = some true
          ↔ lb ≠ []))
    ∧ (((CommitTemplatePropertyKind.TreeDiffEntryList lc).try_into_boolean).isSome = true
      ∧ ((CommitTemplatePropertyKind.TreeDiffEntryList lc).try_into_boolean = some true
          ↔ lc ≠ []))
    ∧ (((CommitTemplatePropertyKind.TrailerList ld).try_into_boolean).isSome = true
      ∧ ((CommitTemplatePropertyKind.TrailerList ld).try_into_boolean = some true
          ↔ ld ≠ [])) := by
  simp [CommitTemplatePropertyKind.try_into_boolean]

/-- C8: when populating the short-prefixes index fails, building the
`shortest` method does not fail: the warning is appended to the diagnostics,
and the build still returns `Ok` with a `ShortestIdPrefix` property that
evaluates through the empty-index fallback. -/
theorem build_shortest_method_degrades (err : String)
    (diagnostics : TemplateDiagnostics) (len_arg : Option Nat) :
    exceptIsOk (buildShortestMethod (.error err) diagnostics len_arg).2 = true
    ∧ ∃ f, buildShortestMethod (.error err) diagnostics len_arg
          = ({ warnings := diagnostics.warnings ++ [shortPrefixesWarning err] },
             .ok f)
        ∧ ∀ id, f id = id.shortest IdPrefixIndex.empty (len_arg.getD 0) :=
  ⟨rfl, _, rfl, fun _ => rfl⟩

/-- C9: `bookmarks` keeps exactly the index entries for this commit id that
are local or not synced (a synced remote bookmark is omitted),
`local_bookmarks` exactly the local entries, `remote_bookmarks` exactly the
remote entries, and each result is a sublist of the index entry, so index
order is preserved. -/
theorem bookmarks_methods_characterization (index : CommitRefsIndex)
    (id : CommitId) (r : CommitRef) :
    (r ∈ bookmarks_method index id
      ↔ r ∈ index.get id ∧ (r.is_local = true ∨ r.synced = false))
    ∧ (r ∈ local_bookmarks_method index id
      ↔ r ∈ index.get id ∧ r.is_local = true)
    ∧ (r ∈ remote_bookmarks_method index id
      ↔ r ∈ index.get id ∧ r.is_remote = true)
    ∧ (bookmarks_method index id).Sublist (index.get id)
    ∧ (local_bookmarks_method index id).Sublist (index.get id)
    ∧ (remote_bookmarks_method index id).Sublist (index.get id) := by
  refine ⟨?_, ?_, ?_, List.filter_sublist _, List.filter_sublist _,
    List.filter_sublist _⟩
  · simp [bookmarks_method, List.mem_filter, Bool.or_eq_true,
      Bool.not_eq_true']
  · simp [local_bookmarks_method, List.mem_filter]
  · simp [remote_bookmarks_method, List.mem_filter]

/-- C10: the tracking count accessors fail exactly when the ref has no
tracking ref (assuming the external graph-walk collaborator itself succeeds),
and a remote ref constructed synced with its tracked local target answers
`(0, some 0)` for both counts from the pre-initialized cells, for every walk
collaborator — so without consulting the commit graph. -/
theorem tracking_counts_characterization (cr : CommitRef)
    (walk_revs : List CommitId → List CommitId → Except String SizeHint)
    (hwalk : ∀ a b, exceptIsOk (walk_revs a b) = true)
    (name remote_nm : String) (remote_ref : RemoteRef)
    (local_target : RefTarget)
    (htracked : remote_ref.is_tracked = true)
    (hsynced : remote_ref.target = local_target) :
    (exceptIsOk (cr.tracking_ahead_count walk_revs) = false
      ↔ cr.is_tracked = false)
    ∧ (exceptIsOk (cr.tracking_behind_count walk_revs) = false
      ↔ cr.is_tracked = false)
    ∧ (CommitRef.remote' name remote_nm remote_ref
        local_target).tracking_ahead_count walk_revs = .ok (0, some 0)
    ∧ (CommitRef.remote' name remote_nm remote_ref
        local_target).tracking_behind_count walk_revs = .ok (0, some 0) := by
  refine ⟨?_, ?_, ?_, ?_⟩
  · cases h : cr.tracking_ref with
    | none =>
      simp [CommitRef.tracking_ahead_count, h, CommitRef.is_tracked, exceptIsOk]
    | some tracking =>
      cases hc : tracking.ahead_count with
      | some count =>
        simp [CommitRef.tracking_ahead_count, h, hc, CommitRef.is_tracked,
          exceptIsOk]
      | none =>
        simp [CommitRef.tracking_ahead_count, h, hc, CommitRef.is_tracked,
          hwalk]
  · cases h : cr.tracking_ref with
    | none =>
      simp [CommitRef.tracking_behind_count, h, CommitRef.is_tracked, exceptIsOk]
    | some tracking =>
      cases hc : tracking.behind_count with
      | some count =>
        simp [CommitRef.tracking_behind_count, h, hc, CommitRef.is_tracked,
          exceptIsOk]
      | none =>
        simp [CommitRef.tracking_behind_count, h, hc, CommitRef.is_tracked,
          hwalk]
  · simp [CommitRef.remote', htracked, hsynced,
      CommitRef.tracking_ahead_count]
  · simp [CommitRef.remote', htracked, hsynced,
      CommitRef.tracking_behind_count]

/-- C10 (witness): with an always-succeeding walk collaborator, an untracked
`remote_only` ref fails both count accessors, and a tracked remote ref whose
target equals the local target answers `(0, some 0)` for both counts. -/
theorem tracking_counts_characterization_instance :
    (∀ a b : List CommitId,
        exceptIsOk ((fun _ _ => Except.ok (1, some 1)
          : List CommitId → List CommitId → Except String SizeHint) a b) = true)
    ∧ (RemoteRef.mk ⟨[⟨[1]⟩], []⟩ true).is_tracked = true
    ∧ (RemoteRef.mk ⟨[⟨[1]⟩], []⟩ true).target = (⟨[⟨[1]⟩], []⟩ : RefTarget)
    ∧ ((exceptIsOk ((CommitRef.remote_only ("a") ("origin")
            ⟨[⟨[1]⟩], []⟩).tracking_ahead_count
          (fun _ _ => Except.ok (1, some 1))) = false
        ↔ (CommitRef.remote_only ("a") ("origin") ⟨[⟨[1]⟩], []⟩).is_tracked = false)
      ∧ (exceptIsOk ((CommitRef.remote_only ("a") ("origin")
            ⟨[⟨[1]⟩], []⟩).tracking_behind_count
          (fun _ _ => Except.ok (1, some 1))) = false
        ↔ (CommitRef.remote_only ("a") ("origin") ⟨[⟨[1]⟩], []⟩).is_tracked = false)
      ∧ (CommitRef.remote' ("a") ("origin") (RemoteRef.mk ⟨[⟨[1]⟩], []⟩ true)
          ⟨[⟨[1]⟩], []⟩).tracking_ahead_count
            (fun _ _ => Except.ok (1, some 1)) = .ok (0, some 0)
      ∧ (CommitRef.remote' ("a") ("origin") (RemoteRef.mk ⟨[⟨[1]⟩], []⟩ true)
          ⟨[⟨[1]⟩], []⟩).tracking_behind_count
            (fun _ _ => Except.ok (1, some 1)) = .ok (0, some 0)) :=
  ⟨fun _ _ => rfl, rfl, rfl,
   tracking_counts_characterization
     (CommitRef.remote_only ("a") ("origin") ⟨[⟨[1]⟩], []⟩)
     (fun _ _ => Except.ok (1, some 1)) (fun _ _ => rfl)
     ("a") ("origin") (RemoteRef.mk ⟨[⟨[1]⟩], []⟩ true) ⟨[⟨[1]⟩], []⟩ rfl rfl⟩

end CommitTemplater
